import Mathlib

/-!
# Verification of the simple-app chat backend and frontend

Shallow embedding of the request/response translation layer of a small
two-tier chat application:

* `src/backend/models/chat_models.py` — the Pydantic data model
  (`ChatMessage`, `ChatRequest`, `ChatResponse`) together with its field
  validation rules;
* `src/backend/services/groq_service.py` — `GroqService._format_messages`,
  `GroqService.chat_completion` and `GroqService.get_available_models`;
* `src/backend/main.py` — the `POST /chat` and `GET /models` endpoint
  handlers, including the service-not-initialized guard and the conversion
  of translator failures into HTTP errors;
* `src/frontend/app.py` — the projection of the session transcript into
  the `history` field of an outbound chat request.

The remote provider call (`self.client.chat.completions.create`) is
modelled by an explicit outcome value (`GroqCallResult`): either a
generated text together with an optional usage total, or a raised error
carrying its description.  Everything downstream of that call is
translated directly from the Python source.
-/

/-- A chat message: a `role`/`content` pair
(`ChatMessage` in `chat_models.py`; the frontend uses plain dicts of the
same shape). -/
structure ChatMessage where
  role : String
  content : String
deriving Repr, DecidableEq

/-- A validated chat request (`ChatRequest` in `chat_models.py`).
`history` is `Optional[List[ChatMessage]]` with default `[]` in the
source; a missing history is represented by the empty list after
validation.  `temperature` is a float in the source, modelled as a
rational. -/
structure ChatRequest where
  message : String
  model : String
  max_tokens : Int
  temperature : ℚ
  history : List ChatMessage
deriving Repr, DecidableEq

/-- A chat response (`ChatResponse` in `chat_models.py`). -/
structure ChatResponse where
  response : String
  model : String
  tokens_used : Nat
  success : Bool
deriving Repr, DecidableEq

/-- The Groq service handle (`GroqService.__init__` stores the API key and
a client built from it; the client itself is the external provider and is
modelled by `GroqCallResult` below). -/
structure GroqService where
  api_key : String
deriving Repr, DecidableEq

/-- Outcome of the one remote provider call made by
`GroqService.chat_completion`: either the generated text
(`completion.choices[0].message.content`) together with the optional usage
object (`completion.usage.total_tokens`, absent when `completion.usage` is
falsy), or an exception whose string form is `errMsg`. -/
inductive GroqCallResult where
  | ok (content : String) (usage : Option Nat)
  | raised (errMsg : String)
deriving Repr, DecidableEq

/-- The role filter used by `GroqService._format_messages`:
`msg.role in ["system", "user", "assistant"]`. -/
def allowedRole (r : String) : Bool :=
  r = "system" || r = "user" || r = "assistant"

/-- `GroqService._format_messages` (groq_service.py lines 32–53): start
from an empty list; if the history is non-empty, loop over it appending a
fresh `{role, content}` dict for every entry whose role is allowed; then
append the final `{role: "user", content: request.message}` entry. -/
def GroqService.formatMessages (request : ChatRequest) : List ChatMessage :=
  let messages : List ChatMessage := []
  let messages :=
    if request.history.isEmpty then messages
    else
      request.history.foldl
        (fun ms msg =>
          if allowedRole msg.role then
            ms ++ [{ role := msg.role, content := msg.content }]
          else ms)
        messages
  messages ++ [{ role := "user", content := request.message }]

/-- `GroqService.chat_completion` (groq_service.py lines 55–101), with the
provider call's outcome passed in explicitly.  On a successful call it
returns the generated text, the request's model, the usage total (0 when
usage is unavailable) and `success := true`; on any raised exception it
returns the error response built in the `except` block. -/
def GroqService.chatCompletion (request : ChatRequest)
    (call : GroqCallResult) : ChatResponse :=
  match call with
  | .ok content usage =>
      { response := content
        model := request.model
        tokens_used := usage.getD 0
        success := true }
  | .raised e =>
      { response := "Error generating response: " ++ e
        model := request.model
        tokens_used := 0
        success := false }

/-- `GroqService.get_available_models` (groq_service.py lines 103–113):
a hardcoded list, ignoring the service state. -/
def GroqService.getAvailableModels (_s : GroqService) : List String :=
  ["llama-3.1-8b-instant"]

/-- The append-into-accumulator loop over a list is list filtering:
the shape shared by `_format_messages` (backend) and the history
projection in `send_chat_request` (frontend). -/
theorem foldl_filter_append (p : ChatMessage → Bool) :
    ∀ (l acc : List ChatMessage),
      l.foldl
        (fun ms msg =>
          if p msg then ms ++ [{ role := msg.role, content := msg.content }]
          else ms) acc
      = acc ++ l.filter p := by
  intro l
  induction l with
  | nil => intro acc; simp
  | cons m t ih =>
      intro acc
      by_cases hm : p m
      · simp [List.foldl_cons, hm, ih, List.filter_cons]
      · simp [List.foldl_cons, hm, ih, List.filter_cons]

/-- **C1.** `_format_messages` keeps exactly the history entries whose
role is `system`, `user` or `assistant`, in order, and appends the final
`{user, request.message}` entry; on the spec's concrete example the
assembled sequence is `[{user,"hi"}, {user,"there"}]`. -/
theorem formatMessages_filter_append (request : ChatRequest) :
    GroqService.formatMessages request
      = request.history.filter (fun m => allowedRole m.role)
          ++ [{ role := "user", content := request.message }] ∧
    GroqService.formatMessages
        { message := "there", model := "m", max_tokens := 1000,
          temperature := 7/10,
          history := [⟨"bogus", "x"⟩, ⟨"user", "hi"⟩] }
      = [⟨"user", "hi"⟩, ⟨"user", "there"⟩] := by
  constructor
  · unfold GroqService.formatMessages
    by_cases h : request.history.isEmpty
    · simp at h
      simp [h]
    · simp only [h, if_false]
      rw [foldl_filter_append]
      simp
  · rfl

/-- **C2.** On a successful provider call, `chat_completion` returns the
generated text, the request's model, the usage total (0 when usage is
unavailable) and `success = true`; with the client stubbed to succeed with
text `"T"` and usage total 5 the result is `{response := "T",
tokens_used := 5, success := true}`; and the `model` field of the result
always equals the request's `model` field. -/
theorem chatCompletion_success_spec (request : ChatRequest) :
    (∀ (content : String) (usage : Option Nat),
        GroqService.chatCompletion request (.ok content usage)
          = { response := content, model := request.model,
              tokens_used := usage.getD 0, success := true }) ∧
    GroqService.chatCompletion request (.ok "T" (some 5))
      = { response := "T", model := request.model,
          tokens_used := 5, success := true } ∧
    (∀ call : GroqCallResult,
        (GroqService.chatCompletion request call).model = request.model) := by
  refine ⟨fun content usage => rfl, rfl, fun call => ?_⟩
  cases call <;> rfl

/-- **C3.** On a raised provider exception, `chat_completion` returns a
normal `ChatResponse` with the error description prefixed by
`"Error generating response: "`, the request's model, `tokens_used = 0`
and `success = false`; consequently every response it produces with
`success = false` has `tokens_used = 0` and an error-description
response string. -/
theorem chatCompletion_failure_spec (request : ChatRequest) :
    (∀ e : String,
        GroqService.chatCompletion request (.raised e)
          = { response := "Error generating response: " ++ e,
              model := request.model, tokens_used := 0, success := false }) ∧
    (∀ call : GroqCallResult,
        (GroqService.chatCompletion request call).success = false →
          (GroqService.chatCompletion request call).tokens_used = 0 ∧
          ∃ d : String,
            (GroqService.chatCompletion request call).response
              = "Error generating response: " ++ d) := by
  refine ⟨fun e => rfl, fun call hfail => ?_⟩
  cases call with
  | ok content usage => simp [GroqService.chatCompletion] at hfail
  | raised e => exact ⟨rfl, e, rfl⟩

/-- Witness for C3: the failure clause evaluated on a concrete request and
a concrete raised error. -/
theorem chatCompletion_failure_spec_witness :
    (GroqService.chatCompletion
        { message := "hi", model := "m", max_tokens := 1000,
          temperature := 7/10, history := [] }
        (.raised "boom")).tokens_used = 0 ∧
    ∃ d : String,
      (GroqService.chatCompletion
        { message := "hi", model := "m", max_tokens := 1000,
          temperature := 7/10, history := [] }
        (.raised "boom")).response = "Error generating response: " ++ d :=
  (chatCompletion_failure_spec
    { message := "hi", model := "m", max_tokens := 1000,
      temperature := 7/10, history := [] }).2
    (.raised "boom") (by rfl)

/-- The default of the `model` field of `ChatRequest`
(chat_models.py line 21). -/
def chatRequestDefaultModel : String := "mixtral-8x7b-32768"

/-- The default of the `temperature` field of `ChatRequest` (0.7 in
chat_models.py line 23), written as the reduced fraction 7/10 so that the
validator evaluates on concrete inputs. -/
def defaultTemperature : ℚ := ⟨7, 10, by norm_num, by norm_num⟩

/-- `defaultTemperature` is the rational 0.7 = 7/10. -/
theorem defaultTemperature_eq : defaultTemperature = 7 / 10 := by
  rw [defaultTemperature, Rat.mk'_eq_divInt, Rat.divInt_eq_div]
  norm_num

/-- An unvalidated `POST /chat` body: the raw field values before Pydantic
validation.  Optional fields carry `none` when absent from the JSON body
(their defaults are applied during validation, as in `ChatRequest`). -/
structure RawChatRequest where
  message : String
  model : Option String
  max_tokens : Option Int
  temperature : Option ℚ
  history : Option (List ChatMessage)
deriving Repr, DecidableEq

/-- Pydantic validation of a `ChatRequest` body (chat_models.py lines
18–25, with the nested `ChatMessage` constraint from lines 11–15):
`message` has `min_length=1, max_length=4000`; `max_tokens` defaults to
1000 with `ge=1, le=4000`; `temperature` defaults to 0.7 with `ge=0.0,
le=2.0`; `model` defaults to `"mixtral-8x7b-32768"`; each history entry's
`content` has `min_length=1`.  FastAPI runs this before the endpoint
handler; a failure is a 422 client error. -/
def validateChatRequest (raw : RawChatRequest) : Except String ChatRequest :=
  if raw.message.length < 1 then
    .error "message: String should have at least 1 character"
  else if raw.message.length > 4000 then
    .error "message: String should have at most 4000 characters"
  else if (raw.max_tokens.getD 1000) < 1 then
    .error "max_tokens: Input should be greater than or equal to 1"
  else if (raw.max_tokens.getD 1000) > 4000 then
    .error "max_tokens: Input should be less than or equal to 4000"
  else if (raw.temperature.getD defaultTemperature) < 0 then
    .error "temperature: Input should be greater than or equal to 0"
  else if (raw.temperature.getD defaultTemperature) > 2 then
    .error "temperature: Input should be less than or equal to 2"
  else if !((raw.history.getD []).all fun m => 1 ≤ m.content.length) then
    .error "history: String should have at least 1 character"
  else
    .ok { message := raw.message
          model := raw.model.getD chatRequestDefaultModel
          max_tokens := raw.max_tokens.getD 1000
          temperature := raw.temperature.getD defaultTemperature
          history := raw.history.getD [] }

/-- Outcome of an HTTP endpoint: a 200 body, or an `HTTPException`-style
error with a status code and a detail string. -/
inductive ApiResult (α : Type) where
  | ok (body : α)
  | httpError (statusCode : Nat) (detail : String)
deriving Repr, DecidableEq

/-- The `POST /chat` endpoint (main.py lines 105–142), preceded by the
framework's request validation.  The second component records whether
`GroqService.chat_completion` was invoked.  Validation failure → 422
before the handler runs; `groq_service` unset → 503; a translator result
with `success == False` → 500 with the result's `response` as detail;
otherwise the `ChatResponse` is returned. -/
def postChat (raw : RawChatRequest) (service : Option GroqService)
    (call : GroqCallResult) : ApiResult ChatResponse × Bool :=
  match validateChatRequest raw with
  | .error e => (.httpError 422 e, false)
  | .ok request =>
    match service with
    | none => (.httpError 503 "Groq service not initialized", false)
    | some _ =>
      let response := GroqService.chatCompletion request call
      if !response.success then
        (.httpError 500 response.response, true)
      else
        (.ok response, true)

/-- The `GET /models` endpoint (main.py lines 87–101).  The second
component records whether `GroqService.get_available_models` was
invoked. -/
def getModels (service : Option GroqService) : ApiResult (List String) × Bool :=
  match service with
  | none => (.httpError 503 "Groq service not initialized", false)
  | some s => (.ok s.getAvailableModels, true)

/-- **C5.** A `POST /chat` body whose `message` is the empty string is
rejected by validation with a 422 client error, and
`GroqService.chat_completion` is never invoked, whatever the service state
and provider behaviour. -/
theorem postChat_emptyMessage_rejected (raw : RawChatRequest)
    (service : Option GroqService) (call : GroqCallResult)
    (h : raw.message = "") :
    postChat raw service call
      = (.httpError 422 "message: String should have at least 1 character",
         false) := by
  simp [postChat, validateChatRequest, h]

/-- Witness for C5: the empty-message body, with an initialized service
and a provider stubbed to succeed. -/
theorem postChat_emptyMessage_rejected_witness :
    postChat { message := "", model := none, max_tokens := none,
               temperature := none, history := none }
        (some { api_key := "k" }) (.ok "T" (some 5))
      = (.httpError 422 "message: String should have at least 1 character",
         false) :=
  postChat_emptyMessage_rejected
    { message := "", model := none, max_tokens := none,
      temperature := none, history := none }
    (some { api_key := "k" }) (.ok "T" (some 5)) rfl

/-- **C6.** When the shared service handle is uninitialized (`None`), a
validated `POST /chat` body and a `GET /models` call both produce the 503
"Groq service not initialized" error, and neither
`GroqService.chat_completion` nor `GroqService.get_available_models` is
invoked. -/
theorem uninitializedService_503 (raw : RawChatRequest) (req : ChatRequest)
    (call : GroqCallResult) (h : validateChatRequest raw = .ok req) :
    postChat raw none call
      = (.httpError 503 "Groq service not initialized", false) ∧
    getModels none
      = (.httpError 503 "Groq service not initialized", false) := by
  refine ⟨?_, rfl⟩
  simp [postChat, h]

/-- Witness for C6: a minimal valid body against the uninitialized
service. -/
theorem uninitializedService_503_witness :
    postChat { message := "hi", model := none, max_tokens := none,
               temperature := none, history := none }
        none (.ok "T" (some 5))
      = (.httpError 503 "Groq service not initialized", false) ∧
    getModels none
      = (.httpError 503 "Groq service not initialized", false) :=
  uninitializedService_503
    { message := "hi", model := none, max_tokens := none,
      temperature := none, history := none }
    { message := "hi", model := chatRequestDefaultModel, max_tokens := 1000,
      temperature := defaultTemperature, history := [] }
    (.ok "T" (some 5)) (by rfl)

/-- **C7.** When the service is initialized and the translator reports
`success = false`, `POST /chat` answers with a 500 error whose detail is
the translator's `response` string — never a 200 body — which is distinct
from the 503 used for the uninitialized service. -/
theorem translatorFailure_500 (raw : RawChatRequest) (req : ChatRequest)
    (s : GroqService) (call : GroqCallResult)
    (hval : validateChatRequest raw = .ok req)
    (hfail : (GroqService.chatCompletion req call).success = false) :
    postChat raw (some s) call
      = (.httpError 500 (GroqService.chatCompletion req call).response,
         true) ∧
    (∀ body : ChatResponse,
        (postChat raw (some s) call).1 ≠ .ok body) := by
  have hpost : postChat raw (some s) call
      = (.httpError 500 (GroqService.chatCompletion req call).response,
         true) := by
    simp [postChat, hval, hfail]
  refine ⟨hpost, fun body hbody => ?_⟩
  rw [hpost] at hbody
  simp at hbody

/-- Witness for C7: a valid body, an initialized service, and a provider
stubbed to raise. -/
theorem translatorFailure_500_witness :
    postChat { message := "hi", model := none, max_tokens := none,
               temperature := none, history := none }
        (some { api_key := "k" }) (.raised "boom")
      = (.httpError 500
          (GroqService.chatCompletion
            { message := "hi", model := chatRequestDefaultModel,
              max_tokens := 1000, temperature := defaultTemperature, history := [] }
            (.raised "boom")).response,
         true) ∧
    (∀ body : ChatResponse,
        (postChat { message := "hi", model := none, max_tokens := none,
                    temperature := none, history := none }
            (some { api_key := "k" }) (.raised "boom")).1 ≠ .ok body) :=
  translatorFailure_500
    { message := "hi", model := none, max_tokens := none,
      temperature := none, history := none }
    { message := "hi", model := chatRequestDefaultModel, max_tokens := 1000,
      temperature := defaultTemperature, history := [] }
    { api_key := "k" } (.raised "boom") (by rfl) rfl

/-- **C8.** `get_available_models` is a static hardcoded catalog: any two
calls, from any two service states, return the same ordered list, namely
`["llama-3.1-8b-instant"]`. -/
theorem getAvailableModels_static (s₁ s₂ : GroqService) :
    s₁.getAvailableModels = s₂.getAvailableModels ∧
    s₁.getAvailableModels = ["llama-3.1-8b-instant"] :=
  ⟨rfl, rfl⟩

/-- **C9.** The default of `ChatRequest.model` — the model a validated
request carries when the body omits the field — is not a member of the
catalog returned by `get_available_models`. -/
theorem defaultModel_not_in_catalog (s : GroqService) (raw : RawChatRequest)
    (req : ChatRequest) (hmodel : raw.model = none)
    (hval : validateChatRequest raw = .ok req) :
    req.model = chatRequestDefaultModel ∧
    req.model ∉ s.getAvailableModels := by
  unfold validateChatRequest at hval
  split_ifs at hval
  injection hval with hval
  subst hval
  refine ⟨?_, ?_⟩
  · show raw.model.getD chatRequestDefaultModel = _
    rw [hmodel]
    rfl
  · show raw.model.getD chatRequestDefaultModel ∉ _
    rw [hmodel]
    show chatRequestDefaultModel ∉ ["llama-3.1-8b-instant"]
    decide

/-- Witness for C9: a body omitting `model`, validated, checked against a
concrete service. -/
theorem defaultModel_not_in_catalog_witness :
    ({ message := "hi", model := chatRequestDefaultModel, max_tokens := 1000,
       temperature := defaultTemperature, history := [] } : ChatRequest).model
        = chatRequestDefaultModel ∧
    ({ message := "hi", model := chatRequestDefaultModel, max_tokens := 1000,
       temperature := defaultTemperature, history := [] } : ChatRequest).model
        ∉ GroqService.getAvailableModels { api_key := "k" } :=
  defaultModel_not_in_catalog { api_key := "k" }
    { message := "hi", model := none, max_tokens := none,
      temperature := none, history := none }
    { message := "hi", model := chatRequestDefaultModel, max_tokens := 1000,
      temperature := defaultTemperature, history := [] }
    rfl (by rfl)

/-- The role filter used by `StreamlitApp.send_chat_request`:
`msg.get("role") in ["user", "assistant"]`. -/
def sessionRole (r : String) : Bool :=
  r = "user" || r = "assistant"

/-- The history projection performed by `StreamlitApp.send_chat_request`
(app.py lines 108–125): loop over the session transcript appending a
fresh `{role, content}` dict for every entry whose role is `user` or
`assistant`; the result becomes the `history` field of the request body. -/
def prepareHistory (messages : List ChatMessage) : List ChatMessage :=
  messages.foldl
    (fun hist msg =>
      if sessionRole msg.role then
        hist ++ [{ role := msg.role, content := msg.content }]
      else hist)
    []

/-- Transcript update after a failed chat call
(`StreamlitApp.render_main_interface`, app.py lines 195–220): the user
turn is appended when submitted, and when the backend reply carries an
error the synthesized assistant entry `"Error: " + <message>` is appended
to the session transcript. -/
def recordFailedTurn (messages : List ChatMessage)
    (prompt errMsg : String) : List ChatMessage :=
  (messages ++ [{ role := "user", content := prompt }])
    ++ [{ role := "assistant", content := "Error: " ++ errMsg }]

/-- Counterexample for C4: after one failed call the transcript holds the
error placeholder `{assistant, "Error: API Error: boom"}`, and the history
that `send_chat_request` builds for the next turn still contains it — the
projection filters by role only and does not exclude error placeholders. -/
theorem prepareHistory_keeps_error_placeholder :
    ({ role := "assistant", content := "Error: " ++ "API Error: boom" }
        : ChatMessage)
      ∈ prepareHistory
          (recordFailedTurn [⟨"user", "hi"⟩, ⟨"assistant", "fine"⟩]
            "again" "API Error: boom") := by
  decide

/-- **C4 (amended).** Before sending a new user turn,
`send_chat_request` projects the transcript into the `history` field by
keeping exactly the entries whose role is `user` or `assistant`, in
order — including any `"Error: ..."` assistant entries synthesized from
failed calls; only entries with other roles are dropped. -/
theorem prepareHistory_filter (messages : List ChatMessage) :
    prepareHistory messages
      = messages.filter (fun m => sessionRole m.role) := by
  unfold prepareHistory
  rw [foldl_filter_append]
  simp

/-- A heap of Python list objects holding `ChatMessage` dicts, indexed by
reference.  Python passes lists by reference, so whether
`_format_messages` mutates `request.history` is an aliasing question; this
explicit-store model makes it expressible. -/
structure ListHeap where
  cells : List (List ChatMessage)
deriving Repr, DecidableEq

/-- Dereference a list object (out-of-range references read as `[]`). -/
def ListHeap.get (h : ListHeap) (r : Nat) : List ChatMessage :=
  h.cells.getD r []

/-- `lst.append(m)`: in-place extension of the list object at `r`. -/
def ListHeap.append (h : ListHeap) (r : Nat) (m : ChatMessage) : ListHeap :=
  ⟨h.cells.set r (h.cells.getD r [] ++ [m])⟩

/-- `messages = []`: allocate a fresh empty list object, returning its
reference. -/
def ListHeap.alloc (h : ListHeap) : ListHeap × Nat :=
  (⟨h.cells ++ [[]]⟩, h.cells.length)

/-- A chat request whose `history` field is a reference into a `ListHeap`
(Python object semantics for the `List[ChatMessage]` field; the scalar
fields are immutable values). -/
structure ChatRequestRef where
  message : String
  model : String
  max_tokens : Int
  temperature : ℚ
  historyRef : Nat
deriving Repr, DecidableEq

/-- `GroqService._format_messages` over the explicit store: `messages`
starts as a freshly allocated empty list; every append targets that fresh
object, never the history object. -/
def GroqService.formatMessagesH (h : ListHeap) (request : ChatRequestRef) :
    ListHeap × Nat :=
  let alloc := h.alloc
  let h1 := alloc.1
  let messagesRef := alloc.2
  let h2 :=
    if (h.get request.historyRef).isEmpty then h1
    else
      (h.get request.historyRef).foldl
        (fun hh msg =>
          if allowedRole msg.role then
            hh.append messagesRef { role := msg.role, content := msg.content }
          else hh)
        h1
  (h2.append messagesRef { role := "user", content := request.message },
   messagesRef)

/-- `GroqService.chat_completion` over the explicit store: it calls
`_format_messages`, sends the result to the provider, and builds the
response; the returned heap is the heap after `_format_messages` (no other
statement of the method touches a list object). -/
def GroqService.chatCompletionH (h : ListHeap) (request : ChatRequestRef)
    (call : GroqCallResult) : ChatResponse × ListHeap :=
  let h1 := (GroqService.formatMessagesH h request).1
  match call with
  | .ok content usage =>
      ({ response := content, model := request.model,
         tokens_used := usage.getD 0, success := true }, h1)
  | .raised e =>
      ({ response := "Error generating response: " ++ e,
         model := request.model, tokens_used := 0, success := false }, h1)

theorem ListHeap.get_append_ne (h : ListHeap) {r j : Nat} (m : ChatMessage)
    (hne : r ≠ j) : (h.append r m).get j = h.get j := by
  simp [ListHeap.get, ListHeap.append, List.getD, List.getElem?_set_ne hne]

theorem ListHeap.length_append (h : ListHeap) (r : Nat) (m : ChatMessage) :
    (h.append r m).cells.length = h.cells.length := by
  simp [ListHeap.append]

theorem ListHeap.get_append_self (h : ListHeap) {r : Nat}
    (hr : r < h.cells.length) (m : ChatMessage) :
    (h.append r m).get r = h.get r ++ [m] := by
  simp [ListHeap.get, ListHeap.append, List.getD,
        List.getElem?_set_self hr, List.getElem?_eq_getElem hr]

/-- Appends targeting reference `r` leave every other cell unchanged. -/
theorem foldl_append_frame (l : List ChatMessage) {r j : Nat} (hne : r ≠ j) :
    ∀ hh : ListHeap,
      (l.foldl
        (fun hh msg =>
          if allowedRole msg.role then
            hh.append r { role := msg.role, content := msg.content }
          else hh)
        hh).get j = hh.get j := by
  induction l with
  | nil => intro hh; rfl
  | cons m t ih =>
      intro hh
      by_cases hm : allowedRole m.role
      · simp only [List.foldl_cons, hm, if_true]
        rw [ih, ListHeap.get_append_ne hh _ hne]
      · simp only [List.foldl_cons, hm, if_false]
        exact ih hh

/-- **C10.** `chat_completion` does not mutate the request: the outbound
message list is built in a freshly allocated object, so after the call —
on success and on failure alike — the history object the request refers to
is unchanged (same length, order and entries); the scalar fields
(`message`, `model`, `max_tokens`, `temperature`) are immutable values and
are not touched by the embedding at all. -/
theorem chatCompletionH_preserves_history (h : ListHeap)
    (request : ChatRequestRef) (call : GroqCallResult)
    (hr : request.historyRef < h.cells.length) :
    (GroqService.chatCompletionH h request call).2.get request.historyRef
      = h.get request.historyRef := by
  have hne : h.cells.length ≠ request.historyRef := Nat.ne_of_gt hr
  have hmain :
      (GroqService.formatMessagesH h request).1.get request.historyRef
        = h.get request.historyRef := by
    unfold GroqService.formatMessagesH ListHeap.alloc
    simp only
    rw [ListHeap.get_append_ne _ _ hne]
    by_cases hemp : (h.get request.historyRef).isEmpty
    · rw [if_pos hemp]
      simp [ListHeap.get, List.getD, List.getElem?_append_left hr]
    · rw [if_neg hemp]
      rw [foldl_append_frame _ hne]
      simp [ListHeap.get, List.getD, List.getElem?_append_left hr]
  unfold GroqService.chatCompletionH
  cases call <;> simpa using hmain

/-- Witness for C10: a two-cell heap whose cell 0 is a one-entry history;
after a completed call the history cell is untouched. -/
theorem chatCompletionH_preserves_history_witness :
    (GroqService.chatCompletionH ⟨[[⟨"user", "hi"⟩]]⟩
        { message := "there", model := "m", max_tokens := 1000,
          temperature := 7/10, historyRef := 0 }
        (.ok "T" (some 5))).2.get 0
      = ListHeap.get ⟨[[⟨"user", "hi"⟩]]⟩ 0 :=
  chatCompletionH_preserves_history ⟨[[⟨"user", "hi"⟩]]⟩
    { message := "there", model := "m", max_tokens := 1000,
      temperature := 7/10, historyRef := 0 }
    (.ok "T" (some 5)) (by decide)

/-- Appends targeting reference `r` accumulate exactly the filtered
entries in the cell at `r`. -/
theorem foldl_append_get (l : List ChatMessage) (r : Nat) :
    ∀ hh : ListHeap, r < hh.cells.length →
      (l.foldl
        (fun hh msg =>
          if allowedRole msg.role then
            hh.append r { role := msg.role, content := msg.content }
          else hh)
        hh).get r
      = hh.get r ++ l.filter (fun m => allowedRole m.role) := by
  induction l with
  | nil => intro hh _; simp
  | cons m t ih =>
      intro hh hr
      by_cases hm : allowedRole m.role
      · simp only [List.foldl_cons, hm, if_true, List.filter_cons]
        rw [ih _ (by rw [ListHeap.length_append]; exact hr),
            ListHeap.get_append_self hh hr]
        cases m
        simp [hm]
      · simp only [List.foldl_cons, List.filter_cons, hm, Bool.false_eq_true,
          if_false]
        exact ih _ hr

/-- Appends targeting reference `r` do not change the number of allocated
list objects. -/
theorem foldl_append_length (l : List ChatMessage) (r : Nat) :
    ∀ hh : ListHeap,
      (l.foldl
        (fun hh msg =>
          if allowedRole msg.role then
            hh.append r { role := msg.role, content := msg.content }
          else hh)
        hh).cells.length = hh.cells.length := by
  induction l with
  | nil => intro hh; rfl
  | cons m t ih =>
      intro hh
      by_cases hm : allowedRole m.role
      · simp only [List.foldl_cons, hm, if_true]
        rw [ih, ListHeap.length_append]
      · simp only [List.foldl_cons, hm, if_false]
        exact ih hh

/-- Coherence of the two embeddings of `_format_messages`: the list object
built by the store-level version holds exactly the message sequence of the
pure version, read off the same history. -/
theorem formatMessagesH_coherent (h : ListHeap) (request : ChatRequestRef) :
    (GroqService.formatMessagesH h request).1.get
        (GroqService.formatMessagesH h request).2
      = GroqService.formatMessages
          { message := request.message, model := request.model,
            max_tokens := request.max_tokens,
            temperature := request.temperature,
            history := h.get request.historyRef } := by
  unfold GroqService.formatMessagesH ListHeap.alloc GroqService.formatMessages
  simp only
  have hlen : h.cells.length < (ListHeap.cells ⟨h.cells ++ [[]]⟩).length := by
    simp
  have hget0 : ListHeap.get ⟨h.cells ++ [[]]⟩ h.cells.length = [] := by
    simp [ListHeap.get, List.getD, List.getElem?_concat_length]
  by_cases hemp : (h.get request.historyRef).isEmpty
  · rw [if_pos hemp, if_pos hemp,
        ListHeap.get_append_self _ hlen, hget0]
  · rw [if_neg hemp, if_neg hemp,
        ListHeap.get_append_self _ (by rw [foldl_append_length]; exact hlen),
        foldl_append_get _ _ _ hlen, hget0, foldl_filter_append]

/-- Coherence of the two embeddings of `chat_completion`: the store-level
version returns the same `ChatResponse` as the pure version on the
request read off the store. -/
theorem chatCompletionH_coherent (h : ListHeap) (request : ChatRequestRef)
    (call : GroqCallResult) :
    (GroqService.chatCompletionH h request call).1
      = GroqService.chatCompletion
          { message := request.message, model := request.model,
            max_tokens := request.max_tokens,
            temperature := request.temperature,
            history := h.get request.historyRef }
          call := by
  cases call <;> rfl
